import Mathlib

/-!
Verification development for the STKO geometry correspondence and property
reconciliation engine (`Copy_STKO_data.py` / `STKO_Geometry_Analyzer_Copier.py`).

The Python code is shallowly embedded as follows.

* Python floats are modelled as rationals `ℚ`; the working default tolerance
  `COORD_TOLERANCE = 1e-6` becomes `mkRat 1 1000000`.
* A coordinate dictionary as produced by `extract_vertex_coordinates` (and as
  stored in the snapshot JSON) is a record of three `Option ℚ` fields: a `none`
  field corresponds to Python `None` (the failure sentinel of
  `extract_vertex_coordinates`, serialized as JSON `null`).
* A Python expression that can raise is modelled in `Except Unit`; `.error ()`
  is a raised exception, and a `try ... except` corresponds to pattern matching
  on the `Except` value.
* The external shape kernel is modelled by the `Shape` record, which exposes
  exactly what the scripts query: per-vertex positions (`vertexPosition`, with
  `none` marking a vertex whose position query raises) and the vertex children
  of each edge, face, and solid (`getSubshapeChildren`);
  `getNumberOfSubshapes` is the corresponding list length.
* Python strings used for name matching are modelled as `List Char`; Python's
  substring operator `in` is `strContains`.
-/

/-- `abs (x1 - x2) < tol` on rationals, computed with integer arithmetic on
numerators and denominators so that concrete instances can be evaluated by
`decide` (the `Rat` field operations are irreducible).  `absSubLt_iff` proves
that this is exactly the comparison `abs (x1 - x2) < tol` written in the
source. -/
def absSubLt (x1 x2 tol : ℚ) : Bool :=
  ((x1.num * x2.den - x2.num * x1.den).natAbs : Int) * tol.den <
    tol.num * (x1.den * x2.den)

/-- The integer comparison `absSubLt` decides the source comparison
`abs(x1 - x2) < tolerance`. -/
theorem absSubLt_iff (x1 x2 tol : ℚ) : absSubLt x1 x2 tol = true ↔ |x1 - x2| < tol := by
  have hd1 : (0:ℚ) < (x1.den : ℚ) := by exact_mod_cast x1.den_pos
  have hd2 : (0:ℚ) < (x2.den : ℚ) := by exact_mod_cast x2.den_pos
  have hdt : (0:ℚ) < (tol.den : ℚ) := by exact_mod_cast tol.den_pos
  have hx : x1 - x2 =
      ((x1.num * x2.den - x2.num * x1.den : ℤ) : ℚ) / ((x1.den : ℚ) * (x2.den : ℚ)) := by
    conv_lhs => rw [← Rat.num_div_den x1, ← Rat.num_div_den x2]
    rw [div_sub_div _ _ (ne_of_gt hd1) (ne_of_gt hd2)]
    push_cast
    ring
  have key2 : |x1 - x2| < tol ↔
      ((((x1.num * x2.den - x2.num * x1.den).natAbs : ℤ) * tol.den : ℤ) : ℚ) <
        ((tol.num * ((x1.den : ℤ) * (x2.den : ℤ)) : ℤ) : ℚ) := by
    rw [hx, abs_div]
    rw [show |(x1.den : ℚ) * (x2.den : ℚ)| = (x1.den : ℚ) * (x2.den : ℚ) from
      abs_of_pos (by positivity)]
    rw [div_lt_iff₀ (by positivity)]
    conv_lhs => rw [← Rat.num_div_den tol]
    rw [div_mul_eq_mul_div, lt_div_iff₀ hdt]
    push_cast
    constructor <;> intro h <;> linarith
  rw [absSubLt, decide_eq_true_iff, key2, Int.cast_lt]

/-- `abs` is symmetric in its difference, so the per-axis comparison is
symmetric. -/
theorem absSubLt_comm (x1 x2 tol : ℚ) : absSubLt x1 x2 tol = absSubLt x2 x1 tol := by
  unfold absSubLt
  rw [show (x2.num * x1.den - x1.num * x2.den).natAbs =
      (x1.num * x2.den - x2.num * x1.den).natAbs by rw [← Int.natAbs_neg]; ring_nf]
  rw [mul_comm (x2.den : Int) (x1.den : Int)]

/-- A 3D vertex position as returned by `shape.vertexPosition`. -/
structure Point where
  x : ℚ
  y : ℚ
  z : ℚ
deriving DecidableEq

/-- A coordinate dictionary as built by `extract_vertex_coordinates` and as
read back from the snapshot JSON: each axis is either a number or Python
`None` / JSON `null`.  (The dictionaries built by these scripts always carry
the three keys `x`, `y`, `z`, so the `not in` guard of `coordinates_match`
never fires on them and is not part of this record.) -/
structure CoordDict where
  x : Option ℚ
  y : Option ℚ
  z : Option ℚ
deriving DecidableEq

/-- `COORD_TOLERANCE = 1e-6`, the default tolerance for coordinate
comparison. -/
def COORD_TOLERANCE : ℚ := mkRat 1 1000000

/-- The tolerance constant is the rational `1e-6` of the source. -/
theorem COORD_TOLERANCE_eq : COORD_TOLERANCE = 1 / 1000000 := by
  rw [COORD_TOLERANCE, Rat.mkRat_eq_div]; norm_num

/-- Embedding of `coordinates_match(coord1, coord2, tolerance)`.

```
if coord1 is None or coord2 is None: return False
if 'x' not in coord1 or 'x' not in coord2: return False
return (abs(coord1['x'] - coord2['x']) < tolerance and
        abs(coord1['y'] - coord2['y']) < tolerance and
        abs(coord1['z'] - coord2['z']) < tolerance)
```

A `None` input yields `.ok false`; the three axis comparisons are evaluated
left to right with Python short-circuiting, and an axis whose value is `None`
raises `TypeError` (modelled as `.error ()`) when — and only when — the
comparison chain actually reaches it. -/
def coordinates_match (coord1 coord2 : Option CoordDict) (tolerance : ℚ) : Except Unit Bool :=
  match coord1, coord2 with
  | none, _ => .ok false
  | some _, none => .ok false
  | some c1, some c2 =>
    match c1.x, c2.x with
    | some x1, some x2 =>
      if absSubLt x1 x2 tolerance then
        match c1.y, c2.y with
        | some y1, some y2 =>
          if absSubLt y1 y2 tolerance then
            match c1.z, c2.z with
            | some z1, some z2 => .ok (absSubLt z1 z2 tolerance)
            | _, _ => .error ()
          else .ok false
        | _, _ => .error ()
      else .ok false
    | _, _ => .error ()

/-- Model of an imported live shape: `vertices` holds the result of
`vertexPosition` per vertex index (`none` meaning the query raises, which
`extract_vertex_coordinates` turns into the all-`None` dictionary), and
`edges` / `faces` / `solids` hold the vertex ids returned by
`getSubshapeChildren` for each subshape of that kind, listed in ascending
local-index order.  `getNumberOfSubshapes` is the length of the relevant
list. -/
structure Shape where
  vertices : List (Option Point)
  edges : List (List Nat)
  faces : List (List Nat)
  solids : List (List Nat)
deriving DecidableEq

/-- Embedding of `extract_vertex_coordinates(shape, vertex_id)`: on success a
fully populated dictionary, on any failure (bare `except`) the sentinel
`{'x': None, 'y': None, 'z': None}`. -/
def extract_vertex_coordinates (shape : Shape) (vertex_id : Nat) : CoordDict :=
  match shape.vertices.getD vertex_id none with
  | some p => ⟨some p.x, some p.y, some p.z⟩
  | none => ⟨none, none, none⟩

/-- Python's short-circuiting `any(f(x) for x in l)` over a generator whose
body may raise: the first raised exception propagates, the first `True` wins,
and an exhausted generator yields `False`. -/
def pyAny {α : Type} (f : α → Except Unit Bool) : List α → Except Unit Bool
  | [] => .ok false
  | a :: l =>
    match f a with
    | .error e => .error e
    | .ok true => .ok true
    | .ok false => pyAny f l

/-- Python's short-circuiting `all(f(x) for x in l)`, with exception
propagation. -/
def pyAll {α : Type} (f : α → Except Unit Bool) : List α → Except Unit Bool
  | [] => .ok true
  | a :: l =>
    match f a with
    | .error e => .error e
    | .ok false => .ok false
    | .ok true => pyAll f l

/-- Embedding of `find_vertex_by_coordinates(shape, target_coords)` starting
the scan at the vertex ids in `l` (the caller passes
`List.range shape.vertices.length`, i.e. `range(num_vertices)`).  There is no
`try` in this function, so an exception from `coordinates_match` propagates. -/
def findVertexFrom (shape : Shape) (target_coords : Option CoordDict) :
    List Nat → Except Unit (Option Nat)
  | [] => .ok none
  | v :: l =>
    match coordinates_match (some (extract_vertex_coordinates shape v)) target_coords
        COORD_TOLERANCE with
    | .error e => .error e
    | .ok true => .ok (some v)
    | .ok false => findVertexFrom shape target_coords l

/-- Embedding of `find_vertex_by_coordinates(shape, target_coords)`. -/
def find_vertex_by_coordinates (shape : Shape) (target_coords : Option CoordDict) :
    Except Unit (Option Nat) :=
  findVertexFrom shape target_coords (List.range shape.vertices.length)

/-- The body of one candidate iteration of `find_edge_by_vertices` /
`find_face_by_vertices` / `find_solid_by_vertices`: gather the candidate's
vertex coordinates, gate on equal cardinality, then check that every candidate
coordinate has some matching target coordinate:

```
if len(cand_coords) == len(target_vertex_coords):
    match = all(any(coordinates_match(cc, tc) for tc in target_vertex_coords)
                for cc in cand_coords)
```
-/
def candidate_matches (shape : Shape) (children : List Nat)
    (target_vertex_coords : List CoordDict) : Except Unit Bool :=
  if (children.map (extract_vertex_coordinates shape)).length = target_vertex_coords.length then
    pyAll (fun cc => pyAny (fun tc => coordinates_match (some cc) (some tc) COORD_TOLERANCE)
      target_vertex_coords) (children.map (extract_vertex_coordinates shape))
  else
    .ok false

/-- The common scan of the edge/face/solid locators: subshapes are visited in
ascending local-index order starting at index `i`; each candidate's body runs
inside `try ... except: pass`, so a candidate that raises is skipped; the
first candidate whose check returns `True` wins; an exhausted scan returns
`None`. -/
def findSubshapeFrom (shape : Shape) (target_vertex_coords : List CoordDict) (i : Nat) :
    List (List Nat) → Option Nat
  | [] => none
  | children :: rest =>
    match candidate_matches shape children target_vertex_coords with
    | .ok true => some i
    | _ => findSubshapeFrom shape target_vertex_coords (i + 1) rest

/-- Embedding of `find_edge_by_vertices(shape, target_vertex_coords)`. -/
def find_edge_by_vertices (shape : Shape) (target_vertex_coords : List CoordDict) :
    Option Nat :=
  findSubshapeFrom shape target_vertex_coords 0 shape.edges

/-- Embedding of `find_face_by_vertices(shape, target_vertex_coords)`. -/
def find_face_by_vertices (shape : Shape) (target_vertex_coords : List CoordDict) :
    Option Nat :=
  findSubshapeFrom shape target_vertex_coords 0 shape.faces

/-- Embedding of `find_solid_by_vertices(shape, target_vertex_coords)`. -/
def find_solid_by_vertices (shape : Shape) (target_vertex_coords : List CoordDict) :
    Option Nat :=
  findSubshapeFrom shape target_vertex_coords 0 shape.solids

/-- Whether the subshape at position `k` of the child-list `l` passes the
candidate check (with a raising candidate counting as a non-match, exactly as
`except: pass` treats it). -/
def candOk (shape : Shape) (t : List CoordDict) (l : List (List Nat)) (k : Nat) : Bool :=
  match l.get? k with
  | some children =>
    match candidate_matches shape children t with
    | .ok true => true
    | _ => false
  | none => false

theorem findSubshapeFrom_eq_some (shape : Shape) (t : List CoordDict) :
    ∀ (l : List (List Nat)) (i j : Nat),
      findSubshapeFrom shape t i l = some j ↔
        ∃ k, j = i + k ∧ candOk shape t l k = true ∧ ∀ m < k, candOk shape t l m = false := by
  intro l
  induction l with
  | nil =>
    intro i j
    constructor
    · intro h; simp [findSubshapeFrom] at h
    · rintro ⟨k, _, hk, _⟩; simp [candOk] at hk
  | cons children rest ih =>
    intro i j
    constructor
    · intro h
      rw [findSubshapeFrom] at h
      rcases hc : candidate_matches shape children t with e | b
      · rw [hc] at h
        rcases (ih (i + 1) j).mp h with ⟨k, hjk, hk, hlt⟩
        refine ⟨k + 1, by omega, ?_, ?_⟩
        · simpa [candOk] using hk
        · intro m hm
          cases m with
          | zero => simp [candOk, hc]
          | succ m => simpa [candOk] using hlt m (by omega)
      · cases b with
        | true =>
          rw [hc] at h
          cases h
          exact ⟨0, by omega, by simp [candOk, hc], by omega⟩
        | false =>
          rw [hc] at h
          rcases (ih (i + 1) j).mp h with ⟨k, hjk, hk, hlt⟩
          refine ⟨k + 1, by omega, ?_, ?_⟩
          · simpa [candOk] using hk
          · intro m hm
            cases m with
            | zero => simp [candOk, hc]
            | succ m => simpa [candOk] using hlt m (by omega)
    · rintro ⟨k, hjk, hk, hlt⟩
      rw [findSubshapeFrom]
      cases k with
      | zero =>
        simp only [candOk, List.get?] at hk
        rcases hc : candidate_matches shape children t with e | b
        · rw [hc] at hk; simp at hk
        · cases b with
          | true => subst hjk; rfl
          | false => rw [hc] at hk; simp at hk
      | succ k =>
        have h0 : candOk shape t (children :: rest) 0 = false := hlt 0 (by omega)
        simp only [candOk, List.get?] at h0
        rcases hc : candidate_matches shape children t with e | b
        · exact (ih (i + 1) j).mpr ⟨k, by omega, by simpa [candOk] using hk,
            fun m hm => by simpa [candOk] using hlt (m + 1) (by omega)⟩
        · cases b with
          | true => rw [hc] at h0; simp at h0
          | false =>
            exact (ih (i + 1) j).mpr ⟨k, by omega, by simpa [candOk] using hk,
              fun m hm => by simpa [candOk] using hlt (m + 1) (by omega)⟩

theorem findSubshapeFrom_eq_none (shape : Shape) (t : List CoordDict) :
    ∀ (l : List (List Nat)) (i : Nat),
      findSubshapeFrom shape t i l = none ↔ ∀ k, candOk shape t l k = false := by
  intro l
  induction l with
  | nil =>
    intro i
    simp [findSubshapeFrom, candOk]
  | cons children rest ih =>
    intro i
    rw [findSubshapeFrom]
    rcases hc : candidate_matches shape children t with e | b
    · rw [ih (i + 1)]
      constructor
      · intro h k
        cases k with
        | zero => simp [candOk, hc]
        | succ k => simpa [candOk] using h k
      · intro h k
        simpa [candOk] using h (k + 1)
    · cases b with
      | true =>
        constructor
        · intro h; cases h
        · intro h
          have := h 0
          simp [candOk, hc] at this
      | false =>
        rw [ih (i + 1)]
        constructor
        · intro h k
          cases k with
          | zero => simp [candOk, hc]
          | succ k => simpa [candOk] using h k
        · intro h k
          simpa [candOk] using h (k + 1)

/-- Equal-cardinality gate: a candidate check can only return `True` when the
candidate's vertex-coordinate list has the same length as the target list. -/
theorem candidate_matches_ok_true_length (shape : Shape) (children : List Nat)
    (t : List CoordDict) (h : candidate_matches shape children t = .ok true) :
    children.length = t.length := by
  rw [candidate_matches] at h
  by_cases hl : (children.map (extract_vertex_coordinates shape)).length = t.length
  · simpa using hl
  · simp only [hl, if_false] at h
    cases h

/-- A coordinate dictionary all of whose axes are present (no `None`). -/
def definedDict (c : CoordDict) : Bool := c.x.isSome && c.y.isSome && c.z.isSome

/-- A shape on which every vertex position query succeeds and every recorded
subshape child index is a valid vertex index. -/
def cleanShape (s : Shape) : Bool :=
  s.vertices.all Option.isSome &&
  (s.edges.all fun children => children.all fun v => v < s.vertices.length) &&
  (s.faces.all fun children => children.all fun v => v < s.vertices.length) &&
  (s.solids.all fun children => children.all fun v => v < s.vertices.length)

/-- Tolerance closeness of two fully populated coordinate dictionaries, one
comparison per axis. -/
def dictClose (c1 c2 : CoordDict) (tol : ℚ) : Bool :=
  match c1.x, c1.y, c1.z, c2.x, c2.y, c2.z with
  | some x1, some y1, some z1, some x2, some y2, some z2 =>
    absSubLt x1 x2 tol && absSubLt y1 y2 tol && absSubLt z1 z2 tol
  | _, _, _, _, _, _ => false

theorem coordinates_match_defined (c1 c2 : CoordDict) (tol : ℚ)
    (h1 : definedDict c1 = true) (h2 : definedDict c2 = true) :
    coordinates_match (some c1) (some c2) tol = .ok (dictClose c1 c2 tol) := by
  rcases c1 with ⟨x1, y1, z1⟩
  rcases c2 with ⟨x2, y2, z2⟩
  rcases x1 with _ | a1
  · simp [definedDict] at h1
  rcases y1 with _ | b1
  · simp [definedDict] at h1
  rcases z1 with _ | g1
  · simp [definedDict] at h1
  rcases x2 with _ | a2
  · simp [definedDict] at h2
  rcases y2 with _ | b2
  · simp [definedDict] at h2
  rcases z2 with _ | g2
  · simp [definedDict] at h2
  simp only [coordinates_match, dictClose]
  by_cases hx : absSubLt a1 a2 tol
  · by_cases hy : absSubLt b1 b2 tol
    · simp [hx, hy]
    · simp [hx, hy]
  · simp [hx]

theorem pyAny_ok {α : Type} (f : α → Except Unit Bool) (g : α → Bool) (l : List α)
    (h : ∀ x ∈ l, f x = .ok (g x)) : pyAny f l = .ok (l.any g) := by
  induction l with
  | nil => rfl
  | cons a l ih =>
    have ha := h a (by simp)
    rw [pyAny, ha]
    rcases hg : g a with _ | _
    · rw [hg] at ha
      simp only [List.any_cons, hg, Bool.false_or]
      exact ih fun x hx => h x (by simp [hx])
    · simp [hg]

theorem pyAll_ok {α : Type} (f : α → Except Unit Bool) (g : α → Bool) (l : List α)
    (h : ∀ x ∈ l, f x = .ok (g x)) : pyAll f l = .ok (l.all g) := by
  induction l with
  | nil => rfl
  | cons a l ih =>
    have ha := h a (by simp)
    rw [pyAll, ha]
    rcases hg : g a with _ | _
    · simp [hg]
    · rw [hg] at ha
      simp only [List.all_cons, hg, Bool.true_and]
      exact ih fun x hx => h x (by simp [hx])

theorem extract_defined (s : Shape) (v : Nat) (hs : s.vertices.all Option.isSome = true)
    (hv : v < s.vertices.length) : definedDict (extract_vertex_coordinates s v) = true := by
  rw [extract_vertex_coordinates]
  rcases hg : s.vertices.getD v none with _ | p
  · have hvv : s.vertices.getD v none = s.vertices[v] := by
      rw [List.getD_eq_getElem?_getD, List.getElem?_eq_getElem hv]
      rfl
    have hmem : s.vertices[v] ∈ s.vertices := List.getElem_mem hv
    have hsome := List.all_eq_true.mp hs _ hmem
    rw [← hvv, hg] at hsome
    simp at hsome
  · simp [definedDict]

/-- The candidate check of the locators, restated for a clean shape and fully
populated targets: equal cardinality, and every candidate vertex coordinate
has some tolerance-matching target coordinate.  This is the containment
direction the code actually implements. -/
def cleanCand (s : Shape) (children : List Nat) (t : List CoordDict) : Bool :=
  decide ((children.map (extract_vertex_coordinates s)).length = t.length) &&
  (children.map (extract_vertex_coordinates s)).all
    (fun cc => t.any (fun tc => dictClose cc tc COORD_TOLERANCE))

/-- The matching predicate exactly as claim C3 words it: equal cardinality,
and every TARGET point has some tolerance-matching point among the candidate
subshape's vertex points. -/
def claimCand (s : Shape) (children : List Nat) (t : List CoordDict) : Bool :=
  decide ((children.map (extract_vertex_coordinates s)).length = t.length) &&
  t.all (fun tc => (children.map (extract_vertex_coordinates s)).any
    (fun cc => dictClose cc tc COORD_TOLERANCE))

theorem candidate_matches_clean (s : Shape) (children : List Nat) (t : List CoordDict)
    (hvs : s.vertices.all Option.isSome = true)
    (hch : children.all (fun v => v < s.vertices.length) = true)
    (ht : t.all definedDict = true) :
    candidate_matches s children t = .ok (cleanCand s children t) := by
  rw [candidate_matches, cleanCand]
  by_cases hl : (children.map (extract_vertex_coordinates s)).length = t.length
  · rw [if_pos hl, decide_eq_true hl, Bool.true_and]
    refine pyAll_ok _ _ _ ?_
    intro cc hcc
    obtain ⟨v, hv, hveq⟩ := List.mem_map.mp hcc
    have hvlt : v < s.vertices.length := by
      simpa using List.all_eq_true.mp hch v hv
    have hccdef : definedDict cc = true := hveq ▸ extract_defined s v hvs hvlt
    refine pyAny_ok _ _ _ ?_
    intro tc htc
    have htcdef : definedDict tc = true := List.all_eq_true.mp ht tc htc
    exact coordinates_match_defined cc tc COORD_TOLERANCE hccdef htcdef
  · rw [if_neg hl, decide_eq_false hl, Bool.false_and]

/-- Whether position `k` of the child-list `l` passes the clean candidate
check. -/
def cleanMatchAt (s : Shape) (t : List CoordDict) (l : List (List Nat)) (k : Nat) : Bool :=
  match l.get? k with
  | some children => cleanCand s children t
  | none => false

theorem candOk_eq_cleanMatchAt (s : Shape) (t : List CoordDict) (l : List (List Nat))
    (hvs : s.vertices.all Option.isSome = true)
    (hl : l.all (fun children => children.all fun v => v < s.vertices.length) = true)
    (ht : t.all definedDict = true) (k : Nat) :
    candOk s t l k = cleanMatchAt s t l k := by
  rw [candOk, cleanMatchAt]
  rcases hg : l.get? k with _ | children
  · rfl
  · have hmem : children ∈ l := List.get?_mem hg
    have hch : children.all (fun v => v < s.vertices.length) = true :=
      List.all_eq_true.mp hl children hmem
    show (match candidate_matches s children t with
      | .ok true => true
      | _ => false) = cleanCand s children t
    rw [candidate_matches_clean s children t hvs hch ht]
    rcases cleanCand s children t with _ | _ <;> rfl

/-- Python's substring operator: `needle in hay` for strings. -/
def strContains (needle hay : List Char) : Bool :=
  (List.range (hay.length + 1)).any fun i => needle.isPrefixOf (hay.drop i)

/-- One property-assignment record of the snapshot JSON, as consumed by the
copy phase.  `sub_id` is the per-kind index key (`vertex_id` / `edge_id` /
`face_id` / `solid_id` of the record's own list), `coordinates` is the single
vertex target of vertex records, and `vertex_coordinates` the corner targets
of edge/face/solid records (`prop_data.get` returning the default is `none` /
`[]`). -/
structure PropAssign where
  property_name : String
  sub_id : Option Nat
  coordinates : Option CoordDict
  vertex_coordinates : List CoordDict
deriving DecidableEq

/-- The per-kind property-record lists of one snapshot geometry
(`properties.physical` or `properties.element`). -/
structure PropsByKind where
  vertices : List PropAssign
  edges : List PropAssign
  faces : List PropAssign
  solids : List PropAssign
deriving DecidableEq

/-- One geometry record of the snapshot JSON (`geom_data`). -/
structure GeomData where
  name : List Char
  shape_type : String
  physical : PropsByKind
  element : PropsByKind
deriving DecidableEq

/-- The name-similarity score computed inside
`assign_properties_to_geometries` for one snapshot name `json_name` against
one live name `imported_name`:

```
if json_name == imported_name: match_score = 100
elif json_name in imported_name: match_score = 50 + len(json_name)
elif imported_name in json_name: match_score = 30 + len(imported_name)
```
-/
def match_score (json_name imported_name : List Char) : Nat :=
  if json_name = imported_name then 100
  else if strContains json_name imported_name then 50 + json_name.length
  else if strContains imported_name json_name then 30 + imported_name.length
  else 0

/-- The correlation fold of `assign_properties_to_geometries`: starting from
`geom_data = None, best_match_score = 0`, each snapshot record with a strictly
better score replaces the current best. -/
def select_best_match (imported_name : List Char) (geometries_data : List GeomData) :
    Option GeomData × Nat :=
  geometries_data.foldl
    (fun best gd =>
      if best.2 < match_score gd.name imported_name
      then (some gd, match_score gd.name imported_name)
      else best)
    (none, 0)

/-- The correlation outcome: `none` models the `[SKIP]` branch
(`if not geom_data or best_match_score == 0: continue`), `some gd` the
correlated snapshot record. -/
def correlate (imported_name : List Char) (geometries_data : List GeomData) :
    Option GeomData :=
  match select_best_match imported_name geometries_data with
  | (none, _) => none
  | (some gd, s) => if s = 0 then none else some gd

/-- The best score over a candidate list (strictly-highest selection keeps
exactly the maximum, with the earliest maximiser winning ties). -/
def maxScore (imported_name : List Char) (geometries_data : List GeomData) : Nat :=
  geometries_data.foldl (fun m gd => max m (match_score gd.name imported_name)) 0

theorem select_best_snd (imported_name : List Char) :
    ∀ (gds : List GeomData) (b : Option GeomData) (s : Nat),
      (gds.foldl
        (fun best gd =>
          if best.2 < match_score gd.name imported_name
          then (some gd, match_score gd.name imported_name)
          else best) (b, s)).2 =
      gds.foldl (fun m gd => max m (match_score gd.name imported_name)) s := by
  intro gds
  induction gds with
  | nil => intro b s; rfl
  | cons gd rest ih =>
    intro b s
    rw [List.foldl_cons, List.foldl_cons]
    by_cases h : s < match_score gd.name imported_name
    · rw [if_pos h]
      rw [ih]
      congr 1
      omega
    · rw [if_neg h]
      rw [ih]
      congr 1
      omega

theorem select_best_achieved (imported_name : List Char) :
    ∀ (gds : List GeomData) (b : Option GeomData) (s : Nat),
      (gds.foldl
        (fun best gd =>
          if best.2 < match_score gd.name imported_name
          then (some gd, match_score gd.name imported_name)
          else best) (b, s)) = (b, s) ∨
      ∃ gd ∈ gds,
        (gds.foldl
          (fun best gd =>
            if best.2 < match_score gd.name imported_name
            then (some gd, match_score gd.name imported_name)
            else best) (b, s)) =
        (some gd, match_score gd.name imported_name) := by
  intro gds
  induction gds with
  | nil => intro b s; left; rfl
  | cons gd rest ih =>
    intro b s
    rw [List.foldl_cons]
    by_cases h : s < match_score gd.name imported_name
    · rw [if_pos h]
      rcases ih (some gd) (match_score gd.name imported_name) with heq | ⟨gd2, hmem, heq⟩
      · right; exact ⟨gd, by simp, heq⟩
      · right; exact ⟨gd2, by simp [hmem], heq⟩
    · rw [if_neg h]
      rcases ih b s with heq | ⟨gd2, hmem, heq⟩
      · left; exact heq
      · right; exact ⟨gd2, by simp [hmem], heq⟩

/-- The `subgeom_type` argument of `find_matching_subgeometry_index` (the
callers only ever pass `'solid'`, `'edge'` or `'face'`; any other string would
fall into the function's `else: return None` branch). -/
inductive SubgeomType where
  | solid
  | edge
  | face
deriving DecidableEq

/-- The grouping loop of `find_matching_subgeometry_index`: build
`subgeom_coords_map`, keyed by the per-kind subshape id, keeping the first
record per id whose `vertex_coordinates` list is nonempty.  Python dictionary
iteration is insertion-ordered, so the map is an association list. -/
def buildSubgeomMap (acc : List (Nat × List CoordDict)) :
    List PropAssign → List (Nat × List CoordDict)
  | [] => acc
  | p :: rest =>
    match p.sub_id with
    | none => buildSubgeomMap acc rest
    | some idx =>
      if acc.any fun q => q.1 = idx then buildSubgeomMap acc rest
      else if p.vertex_coordinates.isEmpty then buildSubgeomMap acc rest
      else buildSubgeomMap (acc ++ [(idx, p.vertex_coordinates)]) rest

/-- The comparison loop of `find_matching_subgeometry_index`: for each grouped
subgeometry, skip it on unequal vertex counts, otherwise require every
imported vertex coordinate to match some recorded coordinate.  This loop runs
outside any `try`, so an exception from `coordinates_match` propagates. -/
def scanSubgeomMap (imported_coords : List CoordDict) :
    List (Nat × List CoordDict) → Except Unit (Option Nat)
  | [] => .ok none
  | (idx, json_coords) :: rest =>
    if json_coords.length ≠ imported_coords.length then
      scanSubgeomMap imported_coords rest
    else
      match pyAll (fun ic => pyAny
          (fun jc => coordinates_match (some ic) (some jc) COORD_TOLERANCE) json_coords)
          imported_coords with
      | .error e => .error e
      | .ok true => .ok (some idx)
      | .ok false => scanSubgeomMap imported_coords rest

/-- Embedding of `find_matching_subgeometry_index(shape, geom_data,
subgeom_type)`: collect the imported shape's vertex coordinates whose `x` is
not `None`, bail out with `None` when there are none, group the requested
kind's physical+element records by subshape id, and scan the groups. -/
def find_matching_subgeometry_index (shape : Shape) (geom_data : GeomData)
    (subgeom_type : SubgeomType) : Except Unit (Option Nat) :=
  let imported_coords := (List.range shape.vertices.length).filterMap fun v =>
    let coords := extract_vertex_coordinates shape v
    if coords.x.isSome then some coords else none
  if imported_coords.isEmpty then .ok none
  else
    let props_list := match subgeom_type with
      | .solid => geom_data.physical.solids ++ geom_data.element.solids
      | .edge => geom_data.physical.edges ++ geom_data.element.edges
      | .face => geom_data.physical.faces ++ geom_data.element.faces
    scanSubgeomMap imported_coords (buildSubgeomMap [] props_list)

/-- The disambiguation step of `assign_properties_to_geometries`: which
snapshot subgeometry index the live shape corresponds to, chosen by shape
type (`matched_subgeom_index` stays `None` for non-composite shape
types). -/
def disambiguate (shape : Shape) (geom_data : GeomData) : Except Unit (Option Nat) :=
  if geom_data.shape_type = "SOLID" ∨ geom_data.shape_type = "COMPSOLID" then
    find_matching_subgeometry_index shape geom_data SubgeomType.solid
  else if geom_data.shape_type = "EDGE" then
    find_matching_subgeometry_index shape geom_data SubgeomType.edge
  else if geom_data.shape_type = "FACE" then
    find_matching_subgeometry_index shape geom_data SubgeomType.face
  else .ok none

/-- What happened to one assignment record in the replay loops of
`assign_properties_to_geometries`:

* `assigned`: the subshape was located and the property written;
* `failedNotFound`: the locator returned `None` (explicit `failed_count`
  branch);
* `raised`: the record's body raised and the `except` arm ran
  (`failed_count` branch);
* `skippedFilter`: `continue` because a disambiguated subgroup filtered the
  record out;
* `skippedNoCoords`: `continue` because the record carries no target
  coordinates;
* `skippedNoProp`: the subshape was located but the record's property name is
  not in the created-properties dictionary, so the `if` silently does
  nothing. -/
inductive Outcome where
  | assigned (sub_id : Nat) (prop : String)
  | failedNotFound
  | raised
  | skippedFilter
  | skippedNoCoords
  | skippedNoProp
deriving DecidableEq

/-- The counter update of one loop iteration: `assigned_count += 1` on a
successful write, `failed_count += 1` on a locator miss or a caught
exception, nothing otherwise. -/
def tally : Nat × Nat → Outcome → Nat × Nat
  | (a, f), .assigned _ _ => (a + 1, f)
  | (a, f), .failedNotFound => (a, f + 1)
  | (a, f), .raised => (a, f + 1)
  | (a, f), _ => (a, f)

/-- One iteration of the vertex-records loop (physical or element; `props` is
the name set of the created-properties dictionary).  `find_vertex_by_coordinates`
runs without an inner `try`, so an exception there is caught by the
record-level `except` arm, i.e. ends in `.raised`. -/
def process_vertex_record (shape : Shape) (props : List String) (r : PropAssign) : Outcome :=
  match r.coordinates with
  | none => .skippedNoCoords
  | some target_coords =>
    match find_vertex_by_coordinates shape (some target_coords) with
    | .error _ => .raised
    | .ok none => .failedNotFound
    | .ok (some v_id) =>
      if r.property_name ∈ props then .assigned v_id r.property_name else .skippedNoProp

/-- One iteration of the edge-records loop, including the
`matched_subgeom_index` subgroup filter. -/
def process_edge_record (shape : Shape) (matched : Option Nat) (props : List String)
    (r : PropAssign) : Outcome :=
  if matched.isSome && (r.sub_id != matched) then .skippedFilter
  else if r.vertex_coordinates.isEmpty then .skippedNoCoords
  else
    match find_edge_by_vertices shape r.vertex_coordinates with
    | none => .failedNotFound
    | some e_id =>
      if r.property_name ∈ props then .assigned e_id r.property_name else .skippedNoProp

/-- One iteration of the face-records loop. -/
def process_face_record (shape : Shape) (matched : Option Nat) (props : List String)
    (r : PropAssign) : Outcome :=
  if matched.isSome && (r.sub_id != matched) then .skippedFilter
  else if r.vertex_coordinates.isEmpty then .skippedNoCoords
  else
    match find_face_by_vertices shape r.vertex_coordinates with
    | none => .failedNotFound
    | some f_id =>
      if r.property_name ∈ props then .assigned f_id r.property_name else .skippedNoProp

/-- One iteration of the solid-records loop. -/
def process_solid_record (shape : Shape) (matched : Option Nat) (props : List String)
    (r : PropAssign) : Outcome :=
  if matched.isSome && (r.sub_id != matched) then .skippedFilter
  else if r.vertex_coordinates.isEmpty then .skippedNoCoords
  else
    match find_solid_by_vertices shape r.vertex_coordinates with
    | none => .failedNotFound
    | some s_id =>
      if r.property_name ∈ props then .assigned s_id r.property_name else .skippedNoProp

/-- One replay loop over a record list, threading the
`(assigned_count, failed_count)` pair. -/
def replay_records (step : PropAssign → Outcome) (records : List PropAssign)
    (acc : Nat × Nat) : Nat × Nat :=
  records.foldl (fun ab r => tally ab (step r)) acc

/-- Whether an outcome incremented `assigned_count`. -/
def Outcome.isAssigned : Outcome → Bool
  | .assigned _ _ => true
  | _ => false

/-- Whether an outcome incremented `failed_count`. -/
def Outcome.isFailure : Outcome → Bool
  | .failedNotFound => true
  | .raised => true
  | _ => false

theorem tally_eq (acc : Nat × Nat) (o : Outcome) :
    tally acc o = (acc.1 + (if o.isAssigned then 1 else 0),
                   acc.2 + (if o.isFailure then 1 else 0)) := by
  rcases acc with ⟨a, f⟩
  cases o <;> simp [tally, Outcome.isAssigned, Outcome.isFailure]

theorem replay_records_counts (step : PropAssign → Outcome) :
    ∀ (records : List PropAssign) (a f : Nat),
      replay_records step records (a, f) =
        (a + (records.map step).countP Outcome.isAssigned,
         f + (records.map step).countP Outcome.isFailure) := by
  intro records
  induction records with
  | nil => intro a f; simp [replay_records]
  | cons r rest ih =>
    intro a f
    rw [replay_records, List.foldl_cons, tally_eq]
    have := ih (a + (if (step r).isAssigned then 1 else 0))
      (f + (if (step r).isFailure then 1 else 0))
    rw [replay_records] at this
    rw [this]
    rcases ha : (step r).isAssigned with _ | _ <;>
      rcases hf : (step r).isFailure with _ | _ <;>
      simp [List.countP_cons, ha, hf] <;> omega

/-- All eight replay loops of `assign_properties_to_geometries` for one
correlated geometry, run after the disambiguation step, in source order:
physical vertices/edges/faces/solids then element vertices/edges/faces/solids.
An exception from the disambiguation step propagates (it runs outside any
`try`); the record loops themselves are total. -/
def assign_for_geometry (shape : Shape) (geom_data : GeomData)
    (physProps elemProps : List String) (acc : Nat × Nat) : Except Unit (Nat × Nat) :=
  match disambiguate shape geom_data with
  | .error e => .error e
  | .ok matched =>
    let a1 := replay_records (process_vertex_record shape physProps)
      geom_data.physical.vertices acc
    let a2 := replay_records (process_edge_record shape matched physProps)
      geom_data.physical.edges a1
    let a3 := replay_records (process_face_record shape matched physProps)
      geom_data.physical.faces a2
    let a4 := replay_records (process_solid_record shape matched physProps)
      geom_data.physical.solids a3
    let a5 := replay_records (process_vertex_record shape elemProps)
      geom_data.element.vertices a4
    let a6 := replay_records (process_edge_record shape matched elemProps)
      geom_data.element.edges a5
    let a7 := replay_records (process_face_record shape matched elemProps)
      geom_data.element.faces a6
    .ok (replay_records (process_solid_record shape matched elemProps)
      geom_data.element.solids a7)

/-- The outer loop of `assign_properties_to_geometries` over the live
geometries of the document: correlate each by name, skip (with the `[SKIP]`
diagnostic) when no snapshot scores above zero, otherwise replay the
correlated snapshot's records; the function's result is the aggregate
`(assigned_count, failed_count)` pair. -/
def assign_properties_to_geometries (live : List (List Char × Shape))
    (geometries_data : List GeomData) (physProps elemProps : List String)
    (acc : Nat × Nat) : Except Unit (Nat × Nat) :=
  match live with
  | [] => .ok acc
  | g :: rest =>
    match correlate g.1 geometries_data with
    | none => assign_properties_to_geometries rest geometries_data physProps elemProps acc
    | some geom_data =>
      match assign_for_geometry g.2 geom_data physProps elemProps acc with
      | .error e => .error e
      | .ok acc2 =>
        assign_properties_to_geometries rest geometries_data physProps elemProps acc2

/-- A property record as read from the snapshot JSON by the materializer
(`prop_data`): the dedup key `property_name`, the `property_type` identifier,
and the scalar parameters map. -/
structure PropRecordData where
  property_name : String
  property_type : String
  parameters : List (String × ℚ)
deriving DecidableEq

/-- A property object living in the document (`MpcProperty` /
`MpcElementProperty`): host id, name, the XObject's type, and the parameter
values that were applied to its attributes. -/
structure MProperty where
  id : Nat
  name : String
  ptype : String
  params : List (String × ℚ)
deriving DecidableEq

/-- The host environment of the materializer: which type identifiers have
metadata (`doc.metaDataPhysicalProperty(prop_type)` succeeds exactly for
these) and, per type, the attribute names of a fresh XObject instance (the
`param_name in xobj.attributes` check). -/
structure PropEnv where
  knownTypes : List String
  typeAttrs : List (String × List String)
deriving DecidableEq

/-- The attribute names of a type's XObject instance. -/
def PropEnv.attrsFor (env : PropEnv) (ptype : String) : List String :=
  match env.typeAttrs.find? fun kv => kv.1 == ptype with
  | some kv => kv.2
  | none => []

/-- `getlastkey(0)`: the largest id in the document's property map, `0` when
empty. -/
def lastkey (d : List MProperty) : Nat :=
  d.foldl (fun m p => max m p.id) 0

/-- Embedding of `create_or_get_physical_property(prop_data)` (and of the
textually identical `create_or_get_element_property`, which differs only in
the document table it reads and writes): scan the existing properties for one
with the same name and return it unchanged if found; otherwise instantiate
the type's metadata (failure — an unknown type — is caught and yields `None`
with the document unchanged), apply every parameter whose name is an XObject
attribute, give the new property id `getlastkey(0) + 1`, register it, and
return it.  The result is the returned property (if any) together with the
updated document table. -/
def create_or_get_physical_property (env : PropEnv) (d : List MProperty)
    (prop_data : PropRecordData) : Option MProperty × List MProperty :=
  match d.find? fun p => p.name == prop_data.property_name with
  | some existing => (some existing, d)
  | none =>
    if prop_data.property_type ∈ env.knownTypes then
      let applied := prop_data.parameters.filter fun kv =>
        kv.1 ∈ env.attrsFor prop_data.property_type
      let new_pp : MProperty :=
        ⟨lastkey d + 1, prop_data.property_name, prop_data.property_type, applied⟩
      (some new_pp, d ++ [new_pp])
    else
      (none, d)

/-- The phase-3 loop of `run_copy_mode` over the property records of the
snapshot: skip records whose name is already a key of the created dictionary,
otherwise call the materializer and register a non-`None` result under the
record's name.  Returns the created dictionary and the document table. -/
def materialize_all (env : PropEnv) :
    List PropRecordData → List (String × MProperty) → List MProperty →
      List (String × MProperty) × List MProperty
  | [], created, d => (created, d)
  | pd :: rest, created, d =>
    if created.any fun kv => kv.1 == pd.property_name then
      materialize_all env rest created d
    else
      match create_or_get_physical_property env d pd with
      | (some pp, d2) => materialize_all env rest (created ++ [(pd.property_name, pp)]) d2
      | (none, d2) => materialize_all env rest created d2

/-- One attachment record of a recorded interaction (`master_data` /
`slave_data`). -/
structure AttachmentData where
  geometry_name : List Char
  subshape_type : String
  vertex_coordinates : List CoordDict
deriving DecidableEq

/-- A coupling record of the snapshot JSON (`int_data`): the optional
physical/element references carry just the recorded `property_name`. -/
structure InteractionData where
  name : String
  itype : Option String
  physical_property : Option String
  element_property : Option String
  masters : List AttachmentData
  slaves : List AttachmentData
deriving DecidableEq

/-- An interaction item (`MpcInteractionItem`): the owning geometry's name
stands for the geometry handle. -/
structure InteractionItem where
  geometry : List Char
  stype : String
  sub_id : Nat
deriving DecidableEq

/-- An interaction object in the document (`MpcInteraction`). -/
structure Interaction where
  id : Nat
  name : String
  itype : String
  physicalProperty : Option String
  elementProperty : Option String
  masters : List InteractionItem
  slaves : List InteractionItem
deriving DecidableEq

/-- Embedding of `get_interaction_type_from_string(type_string)`: `None` or
the empty string fall back to `NodeToNode`; otherwise take the component
after the last dot and keep it when it is a member of the
`MpcInteractionType` enum (`known`), falling back to `NodeToNode`. -/
def get_interaction_type_from_string (known : List String) (type_string : Option String) :
    String :=
  match type_string with
  | none => "NodeToNode"
  | some s =>
    if s = "" then "NodeToNode"
    else
      let type_name := (s.splitOn ".").getLastD s
      if type_name ∈ known then type_name else "NodeToNode"

/-- `getlastkey(0)` over the interactions table. -/
def lastkeyInteraction (d : List Interaction) : Nat :=
  d.foldl (fun m i => max m i.id) 0

/-- The find-or-create step of `recreate_interactions` for one coupling
record: reuse the first existing interaction with the recorded name; only
when none exists, build a new one — setting its type from the recorded type
string and its physical/element property references when the recorded names
were materialized — and add it to the document. -/
def find_or_create_interaction (known : List String) (d : List Interaction)
    (int_data : InteractionData) (physProps elemProps : List String) :
    Interaction × List Interaction :=
  match d.find? fun i => i.name == int_data.name with
  | some existing => (existing, d)
  | none =>
    let new_int : Interaction :=
      { id := lastkeyInteraction d + 1
        name := int_data.name
        itype := get_interaction_type_from_string known int_data.itype
        physicalProperty := match int_data.physical_property with
          | some pn => if pn ∈ physProps then some pn else none
          | none => none
        elementProperty := match int_data.element_property with
          | some pn => if pn ∈ elemProps then some pn else none
          | none => none
        masters := []
        slaves := [] }
    (new_int, d ++ [new_int])

/-- Embedding of `find_subshape_by_coordinates(shape, target_coords,
subshape_type_name)`: dispatch on the subshape kind name; the vertex case
passes `target_coords[0] if target_coords else None` to the vertex locator
(whose exceptions propagate), the other kinds use the per-kind locators; an
unknown kind name yields `None`. -/
def find_subshape_by_coordinates (shape : Shape) (target_coords : List CoordDict)
    (subshape_type_name : String) : Except Unit (Option Nat) :=
  if subshape_type_name = "VERTEX" then
    find_vertex_by_coordinates shape target_coords.head?
  else if subshape_type_name = "EDGE" then
    .ok (find_edge_by_vertices shape target_coords)
  else if subshape_type_name = "FACE" then
    .ok (find_face_by_vertices shape target_coords)
  else if subshape_type_name = "SOLID" then
    .ok (find_solid_by_vertices shape target_coords)
  else
    .ok none

/-- The candidate scan for one attachment: try each candidate geometry in
document order and keep the first whose locator finds the subshape; a raised
exception aborts the scan (it is caught one level up, by the per-attachment
`try`). -/
def firstAttachmentHit (ad : AttachmentData) :
    List (List Char × Shape) → Except Unit (Option InteractionItem)
  | [] => .ok none
  | g :: rest =>
    match find_subshape_by_coordinates g.2 ad.vertex_coordinates ad.subshape_type with
    | .error e => .error e
    | .ok (some found_id) => .ok (some ⟨g.1, ad.subshape_type, found_id⟩)
    | .ok none => firstAttachmentHit ad rest

/-- What happened to one attachment of a coupling record. -/
inductive AttachResult where
  | resolved (item : InteractionItem)
  | geomNotFound
  | subshapeNotFound
  | raised
deriving DecidableEq

/-- One iteration of the masters (or slaves) loop of
`recreate_interactions`: gather every live geometry whose name equals or
contains the recorded geometry name, fail when there is none, then scan the
candidates; exceptions inside the iteration are caught by the per-attachment
`except` arm. -/
def resolve_attachment (live : List (List Char × Shape)) (ad : AttachmentData) :
    AttachResult :=
  let candidate_geoms := live.filter fun g =>
    g.1 = ad.geometry_name ∨ strContains ad.geometry_name g.1
  if candidate_geoms.isEmpty then .geomNotFound
  else
    match firstAttachmentHit ad candidate_geoms with
    | .error _ => .raised
    | .ok none => .subshapeNotFound
    | .ok (some item) => .resolved item

/-- The masters (or slaves) loop: collect the resolved items in loop order
and count every unresolved attachment as a failure. -/
def processAttachments (live : List (List Char × Shape)) :
    List AttachmentData → List InteractionItem × Nat
  | [] => ([], 0)
  | ad :: rest =>
    let tail := processAttachments live rest
    match resolve_attachment live ad with
    | .resolved item => (item :: tail.1, tail.2)
    | _ => (tail.1, tail.2 + 1)

/-- Processing of one coupling record by `recreate_interactions`: find or
create the interaction object, resolve the master and slave attachments, and
append the resolved items to the object's item lists (the Python appends
mutate the object held by the document; the model writes the object back
over the entry with its id).  Returns the updated interactions table and this
record's failure count. -/
def recreate_one_interaction (known : List String) (live : List (List Char × Shape))
    (d : List Interaction) (int_data : InteractionData)
    (physProps elemProps : List String) : List Interaction × Nat :=
  let fc := find_or_create_interaction known d int_data physProps elemProps
  let ms := processAttachments live int_data.masters
  let ss := processAttachments live int_data.slaves
  let updated := { fc.1 with masters := fc.1.masters ++ ms.1, slaves := fc.1.slaves ++ ss.1 }
  (fc.2.map fun i => if i.id = fc.1.id then updated else i, ms.2 + ss.2)

/-- C9: for all points p and q and every tolerance, the coordinate comparison
is symmetric: `coordinates_match p q tol = coordinates_match q p tol`,
including the raising cases. -/
theorem c9_tolerance_symmetry (p q : Option CoordDict) (tol : ℚ) :
    coordinates_match p q tol = coordinates_match q p tol := by
  rcases p with _ | ⟨x1, y1, z1⟩
  · rcases q with _ | q <;> rfl
  rcases q with _ | ⟨x2, y2, z2⟩
  · rfl
  rcases x1 with _ | a1 <;> rcases x2 with _ | a2
  · rfl
  · rfl
  · rfl
  simp only [coordinates_match]
  rw [absSubLt_comm a2 a1 tol]
  by_cases hx : absSubLt a1 a2 tol = true
  · rw [if_pos hx, if_pos hx]
    rcases y1 with _ | b1 <;> rcases y2 with _ | b2
    · rfl
    · rfl
    · rfl
    dsimp only
    rw [absSubLt_comm b2 b1 tol]
    by_cases hy : absSubLt b1 b2 tol = true
    · rw [if_pos hy, if_pos hy]
      rcases z1 with _ | g1 <;> rcases z2 with _ | g2
      · rfl
      · rfl
      · rfl
      dsimp only
      rw [absSubLt_comm g2 g1 tol]
    · rw [if_neg hy, if_neg hy]
  · rw [if_neg hx, if_neg hx]

/-- A live shape with a single vertex whose position query fails, so that
`extract_vertex_coordinates` returns its `{'x': None, 'y': None, 'z': None}`
sentinel. -/
def c7Shape : Shape := ⟨[none], [], [], []⟩

/-- C7 (code behavior at the failing input): a `None` dictionary on either
side does yield `false`, but the `{'x': None, 'y': None, 'z': None}` sentinel
produced by a failed vertex extraction makes the comparison raise
(`None - float` is a `TypeError`) instead of returning `false` as the
specification requires — the sentinel passes both guards of
`coordinates_match` and reaches the subtraction. -/
theorem c7_absent_coordinate_behavior :
    extract_vertex_coordinates c7Shape 0 = ⟨none, none, none⟩ ∧
    coordinates_match (some ⟨none, none, none⟩) (some ⟨some 0, some 0, some 0⟩)
      COORD_TOLERANCE = .error () ∧
    find_vertex_by_coordinates c7Shape (some ⟨some 0, some 0, some 0⟩) = .error () ∧
    coordinates_match none (some ⟨some 0, some 0, some 0⟩) COORD_TOLERANCE = .ok false ∧
    coordinates_match (some ⟨some 0, some 0, some 0⟩) none COORD_TOLERANCE = .ok false :=
  ⟨rfl, rfl, rfl, rfl, rfl⟩

theorem candOk_true_elim (shape : Shape) (t : List CoordDict) (l : List (List Nat)) (k : Nat)
    (h : candOk shape t l k = true) :
    ∃ children, l.get? k = some children ∧ candidate_matches shape children t = .ok true := by
  rw [candOk] at h
  split at h
  · rename_i children hg
    split at h
    · rename_i hc
      exact ⟨children, hg, hc⟩
    · simp at h
  · simp at h

theorem findFrom_zero_length (shape : Shape) (t : List CoordDict) (l : List (List Nat))
    (j : Nat) (h : findSubshapeFrom shape t 0 l = some j) :
    ∃ children, l.get? j = some children ∧ children.length = t.length := by
  obtain ⟨k, hjk, hk, _⟩ := (findSubshapeFrom_eq_some shape t l 0 j).mp h
  have hj : j = k := by omega
  subst hj
  obtain ⟨children, hg, hc⟩ := candOk_true_elim shape t l j hk
  refine ⟨children, hg, ?_⟩
  have := candidate_matches_ok_true_length shape children t hc
  simpa using this

/-- C4: the edge/face/solid locators never report a match whose candidate
vertex-point count differs from the target count — any returned index points
at a child list of exactly the target's length. -/
theorem c4_cardinality_gate (shape : Shape) (t : List CoordDict) :
    (∀ e_id, find_edge_by_vertices shape t = some e_id →
      ∃ children, shape.edges.get? e_id = some children ∧ children.length = t.length) ∧
    (∀ f_id, find_face_by_vertices shape t = some f_id →
      ∃ children, shape.faces.get? f_id = some children ∧ children.length = t.length) ∧
    (∀ s_id, find_solid_by_vertices shape t = some s_id →
      ∃ children, shape.solids.get? s_id = some children ∧ children.length = t.length) :=
  ⟨fun _ h => findFrom_zero_length shape t shape.edges _ h,
   fun _ h => findFrom_zero_length shape t shape.faces _ h,
   fun _ h => findFrom_zero_length shape t shape.solids _ h⟩

/-- A two-vertex shape with one edge, used to instantiate the cardinality
gate. -/
def c4Shape : Shape := ⟨[some ⟨0, 0, 0⟩, some ⟨1, 0, 0⟩], [[0, 1]], [], []⟩

/-- The recorded corner targets matching `c4Shape`'s edge. -/
def c4Targets : List CoordDict :=
  [⟨some 0, some 0, some 0⟩, ⟨some 1, some 0, some 0⟩]

/-- Witness for C4 at a concrete locate that succeeds. -/
theorem c4_cardinality_gate_witness :
    ∃ children, c4Shape.edges.get? 0 = some children ∧ children.length = c4Targets.length :=
  (c4_cardinality_gate c4Shape c4Targets).1 0 (by decide)

/-- Whether position `k` of the child-list `l` passes the matching predicate
as claim C3 words it (every target point finds a match among the candidate's
points). -/
def claimMatchAt (s : Shape) (t : List CoordDict) (l : List (List Nat)) (k : Nat) : Bool :=
  match l.get? k with
  | some children => claimCand s children t
  | none => false

/-- A live shape whose single face has two coincident corner points. -/
def c3Shape : Shape := ⟨[some ⟨0, 0, 0⟩, some ⟨0, 0, 0⟩], [], [[0, 1]], []⟩

/-- Targets of which only the first has a counterpart in `c3Shape`'s face. -/
def c3Targets : List CoordDict :=
  [⟨some 0, some 0, some 0⟩, ⟨some 5, some 5, some 5⟩]

/-- C3 counterexample: the face locator reports face 0 of `c3Shape` as a
match for `c3Targets` although the target point `(5,5,5)` has no
tolerance-matching point among the face's vertices — the code checks
containment of the candidate's points in the target list, not the claimed
containment of the target points in the candidate. -/
theorem c3_counterexample :
    find_face_by_vertices c3Shape c3Targets = some 0 ∧
    claimMatchAt c3Shape c3Targets c3Shape.faces 0 = false := by
  constructor
  · decide
  · decide

theorem cleanShape_parts (s : Shape) (h : cleanShape s = true) :
    s.vertices.all Option.isSome = true ∧
    (s.edges.all fun children => children.all fun v => v < s.vertices.length) = true ∧
    (s.faces.all fun children => children.all fun v => v < s.vertices.length) = true ∧
    (s.solids.all fun children => children.all fun v => v < s.vertices.length) = true := by
  rw [cleanShape] at h
  simp only [Bool.and_eq_true] at h
  exact ⟨h.1.1.1, h.1.1.2, h.1.2, h.2⟩

theorem findFrom_zero_clean (shape : Shape) (t : List CoordDict) (l : List (List Nat))
    (hvs : shape.vertices.all Option.isSome = true)
    (hl : (l.all fun children => children.all fun v => v < shape.vertices.length) = true)
    (ht : t.all definedDict = true) :
    (∀ j, findSubshapeFrom shape t 0 l = some j ↔
      (cleanMatchAt shape t l j = true ∧ ∀ m < j, cleanMatchAt shape t l m = false)) ∧
    (findSubshapeFrom shape t 0 l = none ↔ ∀ j, cleanMatchAt shape t l j = false) := by
  have hcand : ∀ k, candOk shape t l k = cleanMatchAt shape t l k :=
    candOk_eq_cleanMatchAt shape t l hvs hl ht
  constructor
  · intro j
    rw [findSubshapeFrom_eq_some shape t l 0 j]
    constructor
    · rintro ⟨k, hjk, hk, hlt⟩
      have hj : j = k := by omega
      subst hj
      refine ⟨by rw [← hcand j]; exact hk, fun m hm => by rw [← hcand m]; exact hlt m hm⟩
    · rintro ⟨hk, hlt⟩
      exact ⟨j, by omega, by rw [hcand j]; exact hk,
        fun m hm => by rw [hcand m]; exact hlt m hm⟩
  · rw [findSubshapeFrom_eq_none shape t l 0]
    constructor
    · intro h j; rw [← hcand j]; exact h j
    · intro h j; rw [hcand j]; exact h j

/-- C3 (amended): on a clean shape with fully recorded targets, each of the
edge/face/solid locators scans candidates in ascending local-index order and
returns the first index whose candidate passes the cardinality gate and whose
candidate vertex points all have some tolerance-matching target point (the
containment direction of the code, the reverse of the claim's); when no
candidate passes, it returns `none` instead of raising. -/
theorem c3_first_match_scan (shape : Shape) (t : List CoordDict)
    (hs : cleanShape shape = true) (ht : t.all definedDict = true) :
    (∀ j, find_edge_by_vertices shape t = some j ↔
      (cleanMatchAt shape t shape.edges j = true ∧
        ∀ m < j, cleanMatchAt shape t shape.edges m = false)) ∧
    (find_edge_by_vertices shape t = none ↔
      ∀ j, cleanMatchAt shape t shape.edges j = false) ∧
    (∀ j, find_face_by_vertices shape t = some j ↔
      (cleanMatchAt shape t shape.faces j = true ∧
        ∀ m < j, cleanMatchAt shape t shape.faces m = false)) ∧
    (find_face_by_vertices shape t = none ↔
      ∀ j, cleanMatchAt shape t shape.faces j = false) ∧
    (∀ j, find_solid_by_vertices shape t = some j ↔
      (cleanMatchAt shape t shape.solids j = true ∧
        ∀ m < j, cleanMatchAt shape t shape.solids m = false)) ∧
    (find_solid_by_vertices shape t = none ↔
      ∀ j, cleanMatchAt shape t shape.solids j = false) := by
  obtain ⟨hvs, he, hf, hsol⟩ := cleanShape_parts shape hs
  obtain ⟨e1, e2⟩ := findFrom_zero_clean shape t shape.edges hvs he ht
  obtain ⟨f1, f2⟩ := findFrom_zero_clean shape t shape.faces hvs hf ht
  obtain ⟨s1, s2⟩ := findFrom_zero_clean shape t shape.solids hvs hsol ht
  exact ⟨e1, e2, f1, f2, s1, s2⟩

/-- A clean two-vertex shape with one edge, one face and one solid. -/
def c3wShape : Shape :=
  ⟨[some ⟨0, 0, 0⟩, some ⟨1, 0, 0⟩], [[0, 1]], [[0, 1]], [[0, 1]]⟩

/-- Fully recorded targets matching `c3wShape`'s subshapes. -/
def c3wTargets : List CoordDict :=
  [⟨some 0, some 0, some 0⟩, ⟨some 1, some 0, some 0⟩]

/-- Witness for C3 (amended) at a concrete clean shape. -/
theorem c3_first_match_scan_witness :
    find_edge_by_vertices c3wShape c3wTargets = some 0 :=
  ((c3_first_match_scan c3wShape c3wTargets (by decide) (by decide)).1 0).mpr
    ⟨by decide, fun m hm => absurd hm (Nat.not_lt_zero m)⟩

/-- C2 (amended): the correlator's scoring clauses are as recorded (100 for
exact equality, `50 + len(json_name)` for a snapshot name contained in the
live name, `30 + len(imported_name)` for the reverse containment, 0
otherwise); the selected score is exactly the maximum candidate score
(selection is by strict improvement, so the earliest maximiser wins); a
nonzero best score is achieved by the selected snapshot; a zero best score —
and only a zero best score — yields no correlation (the surfaced `[SKIP]`
branch); and exact equality outranks a substring match only for bounded name
lengths: a contained snapshot name of length at most 49 (or a live name of
length at most 69) scores strictly below the exact score 100, while longer
contained names can exceed 100. -/
theorem c2_correlator_scoring :
    (∀ j i : List Char,
      (j = i → match_score j i = 100) ∧
      (j ≠ i → strContains j i = true → match_score j i = 50 + j.length) ∧
      (j ≠ i → strContains j i = false → strContains i j = true →
        match_score j i = 30 + i.length) ∧
      (j ≠ i → strContains j i = false → strContains i j = false →
        match_score j i = 0)) ∧
    (∀ (i : List Char) (gds : List GeomData),
      (select_best_match i gds).2 = maxScore i gds) ∧
    (∀ (i : List Char) (gds : List GeomData), (select_best_match i gds).2 ≠ 0 →
      ∃ gd ∈ gds, (select_best_match i gds).1 = some gd ∧
        match_score gd.name i = (select_best_match i gds).2) ∧
    (∀ (i : List Char) (gds : List GeomData),
      correlate i gds = none ↔ (select_best_match i gds).2 = 0) ∧
    (∀ j i : List Char, j ≠ i → j.length ≤ 49 → i.length ≤ 69 →
      match_score j i < match_score i i) := by
  have hach : ∀ (i : List Char) (gds : List GeomData),
      select_best_match i gds = (none, 0) ∨
      ∃ gd ∈ gds, select_best_match i gds = (some gd, match_score gd.name i) := by
    intro i gds
    exact select_best_achieved i gds none 0
  refine ⟨?_, ?_, ?_, ?_, ?_⟩
  · intro j i
    refine ⟨?_, ?_, ?_, ?_⟩
    · intro h; rw [match_score, if_pos h]
    · intro h1 h2; rw [match_score, if_neg h1, if_pos h2]
    · intro h1 h2 h3
      rw [match_score, if_neg h1, if_neg (by simp [h2]), if_pos h3]
    · intro h1 h2 h3
      rw [match_score, if_neg h1, if_neg (by simp [h2]), if_neg (by simp [h3])]
  · intro i gds
    rw [select_best_match, maxScore]
    exact select_best_snd i gds none 0
  · intro i gds hne
    rcases hach i gds with h | ⟨gd, hmem, h⟩
    · rw [h] at hne; simp at hne
    · exact ⟨gd, hmem, by rw [h], by rw [h]⟩
  · intro i gds
    rcases hach i gds with h | ⟨gd, hmem, h⟩
    · rw [correlate, h]
      simp
    · rw [correlate, h]
      by_cases hz : match_score gd.name i = 0
      · simp [hz]
      · simp [hz]
  · intro j i h1 h2 h3
    have hii : match_score i i = 100 := by rw [match_score, if_pos rfl]
    rw [hii, match_score, if_neg h1]
    by_cases hc1 : strContains j i = true
    · rw [if_pos hc1]; omega
    · rw [if_neg hc1]
      by_cases hc2 : strContains i j = true
      · rw [if_pos hc2]; omega
      · rw [if_neg hc2]; omega

/-- Empty per-kind property lists. -/
def emptyPropsByKind : PropsByKind := ⟨[], [], [], []⟩

/-- A live geometry name of 52 characters. -/
def c2LiveName : List Char := List.replicate 51 'a' ++ ['b']

/-- A snapshot record whose name equals the live name exactly. -/
def c2ExactGd : GeomData := ⟨c2LiveName, "SOLID", emptyPropsByKind, emptyPropsByKind⟩

/-- A snapshot record whose 51-character name is a proper substring of the
live name. -/
def c2SubstrGd : GeomData :=
  ⟨List.replicate 51 'a', "SOLID", emptyPropsByKind, emptyPropsByKind⟩

/-- C2 counterexample: with a 52-character live name, the exactly matching
snapshot scores 100 but the contained 51-character snapshot scores
`50 + 51 = 101`, so the correlator selects the substring match over the exact
match — exact equality does not always have highest priority. -/
theorem c2_counterexample :
    match_score c2ExactGd.name c2LiveName = 100 ∧
    c2SubstrGd.name ≠ c2LiveName ∧
    match_score c2SubstrGd.name c2LiveName = 101 ∧
    correlate c2LiveName [c2ExactGd, c2SubstrGd] = some c2SubstrGd ∧
    (select_best_match c2LiveName [c2ExactGd, c2SubstrGd]).2 = 101 := by
  refine ⟨by decide, by decide, by decide, by decide, by decide⟩

/-- Witness for C2 (amended): a short non-equal name scores strictly below
the exact score. -/
theorem c2_correlator_scoring_witness :
    match_score [Char.ofNat 97] [Char.ofNat 98] < match_score [Char.ofNat 98] [Char.ofNat 98] :=
  c2_correlator_scoring.2.2.2.2 [Char.ofNat 97] [Char.ofNat 98]
    (by decide) (by decide) (by decide)

/-- The first recorded sub-solid group of the C5 scenario, vertices
`{A,B,C,D}`. -/
def c5RecA : PropAssign :=
  ⟨"P1", some 0, none,
    [⟨some 10, some 0, some 0⟩, ⟨some 10, some 1, some 0⟩,
     ⟨some 10, some 0, some 1⟩, ⟨some 10, some 1, some 1⟩]⟩

/-- The second recorded sub-solid group of the C5 scenario, vertices
`{E,F,G,H}`. -/
def c5RecB : PropAssign :=
  ⟨"P2", some 1, none,
    [⟨some 20, some 0, some 0⟩, ⟨some 20, some 1, some 0⟩,
     ⟨some 20, some 0, some 1⟩, ⟨some 20, some 1, some 1⟩]⟩

/-- A snapshot solid geometry with two recorded sub-solid groups. -/
def c5Gd : GeomData :=
  ⟨[Char.ofNat 83], "SOLID", ⟨[], [], [], [c5RecA, c5RecB]⟩, emptyPropsByKind⟩

/-- A live shape whose four vertices match neither recorded group. -/
def c5Shape : Shape :=
  ⟨[some ⟨0, 0, 0⟩, some ⟨1, 0, 0⟩, some ⟨2, 0, 0⟩, some ⟨3, 0, 0⟩], [], [], [[0, 1, 2, 3]]⟩

/-- The created-property names of the C5 scenario. -/
def c5Props : List String := ["P1", "P2"]

/-- C5: when the disambiguator is unresolved (`matched_subgeom_index` is
`None`), the subgroup filter never skips a record, so every recorded group is
replayed; concretely, for a snapshot solid with two recorded sub-solids whose
vertex sets both fail to match the live vertices, the disambiguator returns
`None` and both groups' records are processed against the live shape (both
reach the locator and are tallied, here as failures). -/
theorem c5_broadcast_fallback :
    (∀ (shape : Shape) (props : List String) (r : PropAssign),
      process_solid_record shape none props r ≠ Outcome.skippedFilter) ∧
    disambiguate c5Shape c5Gd = .ok none ∧
    process_solid_record c5Shape none c5Props c5RecA = Outcome.failedNotFound ∧
    process_solid_record c5Shape none c5Props c5RecB = Outcome.failedNotFound ∧
    replay_records (process_solid_record c5Shape none c5Props)
      c5Gd.physical.solids (0, 0) = (0, 2) := by
  refine ⟨?_, by rfl, by rfl, by rfl, by rfl⟩
  intro shape props r
  rw [process_solid_record]
  rw [if_neg (by simp)]
  by_cases h : r.vertex_coordinates.isEmpty
  · rw [if_pos h]; simp
  · rw [if_neg h]
    rcases find_solid_by_vertices shape r.vertex_coordinates with _ | s_id
    · simp
    · by_cases hp : r.property_name ∈ props
      · simp [hp]
      · simp [hp]

/-- A live shape with one vertex at the origin. -/
def c1Shape : Shape := ⟨[some ⟨0, 0, 0⟩], [], [], []⟩

/-- A vertex assignment record whose recorded coordinate matches `c1Shape`'s
vertex and whose property name was never materialized. -/
def c1Rec : PropAssign := ⟨"Steel-S1", none, some ⟨some 0, some 0, some 0⟩, []⟩

/-- C1 counterexample: a record whose vertex IS located but whose property
name is absent from the created-properties dictionary is silently dropped —
the replay neither assigns nor fails it, leaving both counters untouched. -/
theorem c1_counterexample :
    find_vertex_by_coordinates c1Shape (some ⟨some 0, some 0, some 0⟩) = .ok (some 0) ∧
    process_vertex_record c1Shape [] c1Rec = Outcome.skippedNoProp ∧
    replay_records (process_vertex_record c1Shape []) [c1Rec] (0, 0) = (0, 0) :=
  ⟨rfl, rfl, rfl⟩

/-- C1 (amended): each replay loop adds to `assigned_count` exactly the
records whose outcome is an assignment and to `failed_count` exactly those
whose outcome is a locator miss or a caught exception; a vertex record is
assigned iff its recorded coordinate is present, the vertex locator finds a
live vertex and the property name was materialized; it is failed iff the
locator scan misses or raises; and it is silently dropped — counted in
neither tally — when its coordinates are missing or when the located
subshape's property name was never materialized. -/
theorem c1_counting_invariant :
    (∀ (step : PropAssign → Outcome) (records : List PropAssign) (a f : Nat),
      replay_records step records (a, f) =
        (a + (records.map step).countP (fun o => o.isAssigned),
         f + (records.map step).countP (fun o => o.isFailure))) ∧
    (∀ (shape : Shape) (props : List String) (r : PropAssign),
      (process_vertex_record shape props r).isAssigned = true ↔
        (∃ tc, r.coordinates = some tc ∧
          (∃ v_id, find_vertex_by_coordinates shape (some tc) = .ok (some v_id)) ∧
          r.property_name ∈ props)) ∧
    (∀ (shape : Shape) (props : List String) (r : PropAssign),
      (process_vertex_record shape props r).isFailure = true ↔
        (∃ tc, r.coordinates = some tc ∧
          (find_vertex_by_coordinates shape (some tc) = .ok none ∨
           find_vertex_by_coordinates shape (some tc) = .error ()))) ∧
    (∀ (shape : Shape) (props : List String) (r : PropAssign),
      process_vertex_record shape props r = Outcome.skippedNoProp ↔
        (∃ tc, r.coordinates = some tc ∧
          (∃ v_id, find_vertex_by_coordinates shape (some tc) = .ok (some v_id)) ∧
          r.property_name ∉ props)) := by
  refine ⟨?_, ?_, ?_, ?_⟩
  · intro step records a f
    exact replay_records_counts step records a f
  · intro shape props r
    rw [process_vertex_record]
    rcases hc : r.coordinates with _ | tc
    · simp [Outcome.isAssigned]
    · rcases hfind : find_vertex_by_coordinates shape (some tc) with e | ores
      · simp [Outcome.isAssigned, hfind]
      · rcases ores with _ | v_id
        · simp [Outcome.isAssigned, hfind]
        · by_cases hp : r.property_name ∈ props
          · simp [Outcome.isAssigned, hfind, hp]
          · simp [Outcome.isAssigned, hfind, hp]
  · intro shape props r
    rw [process_vertex_record]
    rcases hc : r.coordinates with _ | tc
    · simp [Outcome.isFailure]
    · rcases hfind : find_vertex_by_coordinates shape (some tc) with e | ores
      · rcases e
        simp [Outcome.isFailure, hfind]
      · rcases ores with _ | v_id
        · simp [Outcome.isFailure, hfind]
        · by_cases hp : r.property_name ∈ props
          · simp [Outcome.isFailure, hfind, hp]
          · simp [Outcome.isFailure, hfind, hp]
  · intro shape props r
    rw [process_vertex_record]
    rcases hc : r.coordinates with _ | tc
    · simp
    · rcases hfind : find_vertex_by_coordinates shape (some tc) with e | ores
      · simp [hfind]
      · rcases ores with _ | v_id
        · simp [hfind]
        · by_cases hp : r.property_name ∈ props
          · simp [hfind, hp]
          · simp [hfind, hp]

theorem assign_for_geometry_ok (shape : Shape) (geom_data : GeomData)
    (physProps elemProps : List String) (acc : Nat × Nat) (m : Option Nat)
    (h : disambiguate shape geom_data = .ok m) :
    ∃ res, assign_for_geometry shape geom_data physProps elemProps acc = .ok res := by
  rw [assign_for_geometry, h]
  exact ⟨_, rfl⟩

theorem assign_properties_ok (gds : List GeomData) (physProps elemProps : List String) :
    ∀ (live : List (List Char × Shape)) (acc : Nat × Nat),
      (∀ g ∈ live, ∀ gd, correlate g.1 gds = some gd →
        ∃ m, disambiguate g.2 gd = .ok m) →
      ∃ res, assign_properties_to_geometries live gds physProps elemProps acc = .ok res := by
  intro live
  induction live with
  | nil => intro acc hall; exact ⟨acc, rfl⟩
  | cons g rest ih =>
    intro acc hall
    rw [assign_properties_to_geometries]
    rcases hcor : correlate g.1 gds with _ | gd
    · exact ih acc fun g2 hg2 gd hc => hall g2 (by simp [hg2]) gd hc
    · obtain ⟨m, hm⟩ := hall g (by simp) gd hcor
      obtain ⟨acc2, hacc2⟩ :=
        assign_for_geometry_ok g.2 gd physProps elemProps acc m hm
      dsimp only
      rw [hacc2]
      exact ih acc2 fun g2 hg2 gd2 hc => hall g2 (by simp [hg2]) gd2 hc

/-- C8: an exception while processing one assignment record is absorbed at
that record (`Outcome.raised`), counted as a failure, and the loop continues
with the remaining records of the same geometry — the loop over
`pre ++ r :: post` always equals the loop over `post` started from the tally
of `r`, whatever `r`'s outcome; a raising vertex locate yields exactly the
`raised` outcome; the record loops never make the per-geometry step raise
(only the disambiguation step can); and the orchestrator runs every geometry
to completion, returning the aggregate `(assigned_count, failed_count)`
pair. -/
theorem c8_failure_isolation :
    (∀ (step : PropAssign → Outcome) (pre : List PropAssign) (r : PropAssign)
        (post : List PropAssign) (acc : Nat × Nat),
      replay_records step (pre ++ r :: post) acc =
        replay_records step post (tally (replay_records step pre acc) (step r))) ∧
    (∀ (shape : Shape) (props : List String) (r : PropAssign) (tc : CoordDict),
      r.coordinates = some tc →
      find_vertex_by_coordinates shape (some tc) = .error () →
      process_vertex_record shape props r = Outcome.raised) ∧
    (∀ a f : Nat, tally (a, f) Outcome.raised = (a, f + 1)) ∧
    (∀ (shape : Shape) (geom_data : GeomData) (physProps elemProps : List String)
        (acc : Nat × Nat) (m : Option Nat),
      disambiguate shape geom_data = .ok m →
      ∃ res, assign_for_geometry shape geom_data physProps elemProps acc = .ok res) ∧
    (∀ (live : List (List Char × Shape)) (gds : List GeomData)
        (physProps elemProps : List String) (acc : Nat × Nat),
      (∀ g ∈ live, ∀ gd, correlate g.1 gds = some gd →
        ∃ m, disambiguate g.2 gd = .ok m) →
      ∃ res, assign_properties_to_geometries live gds physProps elemProps acc = .ok res) := by
  refine ⟨?_, ?_, ?_, ?_, ?_⟩
  · intro step pre r post acc
    rw [replay_records, replay_records, replay_records, List.foldl_append, List.foldl_cons]
  · intro shape props r tc h1 h2
    simp [process_vertex_record, h1, h2]
  · intro a f; rfl
  · exact fun shape gd pp ep acc m h => assign_for_geometry_ok shape gd pp ep acc m h
  · exact fun live gds pp ep acc hall => assign_properties_ok gds pp ep live acc hall

/-- A live shape whose only vertex position query fails, making the vertex
locator raise. -/
def c8Shape : Shape := ⟨[none], [], [], []⟩

/-- A vertex record whose replay raises on `c8Shape`. -/
def c8Rec : PropAssign := ⟨"P", none, some ⟨some 0, some 0, some 0⟩, []⟩

/-- Witness for C8 at a concrete raising record. -/
theorem c8_failure_isolation_witness :
    process_vertex_record c8Shape [] c8Rec = Outcome.raised :=
  c8_failure_isolation.2.1 c8Shape [] c8Rec ⟨some 0, some 0, some 0⟩ rfl (by rfl)

theorem find_none_name_not_mem (d : List MProperty) (n : String)
    (h : (d.find? fun p => p.name == n) = none) : n ∉ d.map MProperty.name := by
  intro hmem
  obtain ⟨p, hp, hpn⟩ := List.mem_map.mp hmem
  have := List.find?_eq_none.mp h p hp
  rw [hpn] at this
  simp at this

/-- The host environment of the C6 scenario. -/
def c6Env : PropEnv := ⟨["ElasticIsotropic"], [("ElasticIsotropic", ["E", "nu"])]⟩

/-- First snapshot reference to property `Steel-S1`. -/
def c6RecA : PropRecordData :=
  ⟨"Steel-S1", "ElasticIsotropic", [("E", 210000), ("nu", mkRat 3 10)]⟩

/-- Second snapshot reference to property `Steel-S1`, identical parameters. -/
def c6RecB : PropRecordData :=
  ⟨"Steel-S1", "ElasticIsotropic", [("E", 210000), ("nu", mkRat 3 10)]⟩

/-- The single property materialized by the C6 scenario. -/
def c6Steel : MProperty :=
  ⟨1, "Steel-S1", "ElasticIsotropic", [("E", 210000), ("nu", mkRat 3 10)]⟩

/-- C6: the materializer looks up by name first and, on a hit, returns the
existing property with the document unchanged (its type and parameters
untouched); materialization preserves name-uniqueness of the document table;
the phase-3 loop registers at most one created property per distinct name;
and in the concrete two-assignment scenario exactly one `Steel-S1` property
is created and both assignments reference it through the single created-map
entry. -/
theorem c6_materializer_idempotent :
    (∀ (env : PropEnv) (d : List MProperty) (pd : PropRecordData) (p0 : MProperty),
      (d.find? fun p => p.name == pd.property_name) = some p0 →
      create_or_get_physical_property env d pd = (some p0, d)) ∧
    (∀ (env : PropEnv) (d : List MProperty) (pd : PropRecordData),
      (d.map MProperty.name).Nodup →
      ((create_or_get_physical_property env d pd).2.map MProperty.name).Nodup) ∧
    (∀ (env : PropEnv) (pds : List PropRecordData) (created : List (String × MProperty))
        (d : List MProperty),
      (created.map Prod.fst).Nodup →
      ((materialize_all env pds created d).1.map Prod.fst).Nodup) ∧
    materialize_all c6Env [c6RecA, c6RecB] [] [] = ([("Steel-S1", c6Steel)], [c6Steel]) := by
  refine ⟨?_, ?_, ?_, by rfl⟩
  · intro env d pd p0 h
    unfold create_or_get_physical_property
    rw [h]
  · intro env d pd hnd
    unfold create_or_get_physical_property
    rcases hfind : d.find? (fun p => p.name == pd.property_name) with _ | p0
    · rw [hfind]
      by_cases hk : pd.property_type ∈ env.knownTypes
      · rw [if_pos hk]
        dsimp only
        rw [List.map_append]
        rw [List.nodup_append]
        refine ⟨hnd, List.nodup_singleton _, ?_⟩
        intro n hn hn2
        simp only [List.map_cons, List.map_nil, List.mem_singleton] at hn2
        subst hn2
        exact find_none_name_not_mem d pd.property_name hfind hn
      · rw [if_neg hk]
        exact hnd
    · rw [hfind]
      exact hnd
  · intro env pds
    induction pds with
    | nil => intro created d h; exact h
    | cons pd rest ih =>
      intro created d h
      rw [materialize_all]
      by_cases hskip : (created.any fun kv => kv.1 == pd.property_name) = true
      · rw [if_pos hskip]
        exact ih created d h
      · rw [if_neg hskip]
        rcases hc : create_or_get_physical_property env d pd with ⟨op, d2⟩
        rcases op with _ | pp
        · exact ih created d2 h
        · refine ih (created ++ [(pd.property_name, pp)]) d2 ?_
          rw [List.map_append, List.nodup_append]
          refine ⟨h, List.nodup_singleton _, ?_⟩
          intro n hn hn2
          simp only [List.map_cons, List.map_nil, List.mem_singleton] at hn2
          subst hn2
          obtain ⟨kv, hkv, hkvn⟩ := List.mem_map.mp hn
          have := List.any_eq_false.mp (Bool.not_eq_true _ ▸ hskip) kv hkv
          rw [hkvn] at this
          simp at this

/-- Witness for C6: looking up an existing property by name returns it with
the document unchanged. -/
theorem c6_materializer_idempotent_witness :
    create_or_get_physical_property c6Env [c6Steel] c6RecB = (some c6Steel, [c6Steel]) :=
  c6_materializer_idempotent.1 c6Env [c6Steel] c6RecB c6Steel rfl

/-- C10: when an interaction with the recorded name already exists, the
reconstructor reuses that object — the document after processing the record
is exactly the old table with that interaction's master/slave item lists
extended by the resolved attachments, its `type`, physical-property and
element-property references untouched, and no interaction added. -/
theorem c10_interaction_reuse (known : List String) (live : List (List Char × Shape))
    (d : List Interaction) (int_data : InteractionData) (physProps elemProps : List String)
    (ex : Interaction)
    (h : (d.find? fun i => i.name == int_data.name) = some ex) :
    recreate_one_interaction known live d int_data physProps elemProps =
      (d.map fun i => if i.id = ex.id then
        { ex with masters := ex.masters ++ (processAttachments live int_data.masters).1,
                  slaves := ex.slaves ++ (processAttachments live int_data.slaves).1 }
        else i,
       (processAttachments live int_data.masters).2 +
         (processAttachments live int_data.slaves).2) := by
  unfold recreate_one_interaction find_or_create_interaction
  rw [h]

/-- The live document of the C10 witness: one geometry named `G` with one
vertex. -/
def c10Live : List (List Char × Shape) :=
  [([Char.ofNat 71], ⟨[some ⟨0, 0, 0⟩], [], [], []⟩)]

/-- An interaction already present in the document. -/
def c10Existing : Interaction := ⟨1, "Coupling-1", "NodeToNode", none, none, [], []⟩

/-- A recorded coupling with the same name and one resolvable master
attachment. -/
def c10Data : InteractionData :=
  ⟨"Coupling-1", some "MpcInteractionType.NodeToNode", none, none,
    [⟨[Char.ofNat 71], "VERTEX", [⟨some 0, some 0, some 0⟩]⟩], []⟩

/-- Witness for C10: the existing interaction is reused, its fields kept, and
the resolved master appended. -/
theorem c10_interaction_reuse_witness :
    recreate_one_interaction ["NodeToNode"] c10Live [c10Existing] c10Data [] [] =
      ([⟨1, "Coupling-1", "NodeToNode", none, none,
          [⟨[Char.ofNat 71], "VERTEX", 0⟩], []⟩], 0) := by
  rw [c10_interaction_reuse ["NodeToNode"] c10Live [c10Existing] c10Data [] []
    c10Existing rfl]
  rfl
